import Mathlib

/-!
DocuMind front end: a Lean model of the authenticated-session layer
(AuthContext.tsx) and of the moderator dashboard orchestrator
(ModeratorDashboard.tsx), the latter in its reduced two-resource variant
and its extended four-resource variant, together with theorems settling
the specification claims against the model.
-/

namespace DocuMind

/-! Session manager, from AuthContext.tsx. -/

/-- A provider-issued identity record; the email may be missing. -/
structure Identity where
  id : String
  email : Option String
deriving DecidableEq

/-- The fixed moderator allowlist, from AuthContext.tsx. -/
def MODERATOR_EMAILS : List String :=
  ["akhyarahmad919@gmail.com", "ansuthisis789@gmail.com"]

/-- The published session state: currentUser, loading and isModerator. -/
structure SessionState where
  currentUser : Option Identity
  loading : Bool
  isModerator : Bool
deriving DecidableEq

/-- The useState initial values of AuthProvider: no user, loading, not a
moderator. -/
def initialSessionState : SessionState :=
  { currentUser := none, loading := true, isModerator := false }

/-- The moderator test of the auth-state callback: the user is present, the
email is present and non-empty (JavaScript truthiness), and the email is in
MODERATOR_EMAILS. -/
def moderatorCheck : Option Identity → Bool
  | none => false
  | some u =>
    match u.email with
    | none => false
    | some e => (e != "") && MODERATOR_EMAILS.contains e

/-- One auth-state notification: the callback stores the user, derives
isModerator and clears loading. -/
def onAuthStateChanged (user : Option Identity) (_s : SessionState) : SessionState :=
  { currentUser := user, isModerator := moderatorCheck user, loading := false }

/-- The session state after a sequence of auth-state notifications, starting
from the initial state. -/
def applyAuthEvents (events : List (Option Identity)) : SessionState :=
  events.foldl (fun s u => onAuthStateChanged u s) initialSessionState

/-! Dashboard orchestrator: parts shared by both variants. -/

/-- JavaScript truthiness of the token: present and non-empty. -/
def tokenTruthy : Option String → Bool
  | none => false
  | some t => t != ""

/-- The ok flag of a fetch response: a status in the range 200 to 299. -/
def respOk (status : Nat) : Bool :=
  decide (200 ≤ status) && decide (status < 300)

/-- The test applied first to each response: status 401 or 403. -/
def isAuthFailure (status : Nat) : Bool :=
  [401, 403].contains status

/-- Result of the response-checking loop. -/
inductive LoopResult where
  | unauthorized
  | httpError (status : Nat)
  | allOk
deriving DecidableEq

/-- The response-checking loop of loadDashboardData: for each response in
order, first the 401/403 test (early return), then the ok test (throw). -/
def checkResponses : List Nat → LoopResult
  | [] => .allOk
  | status :: rest =>
    if isAuthFailure status then .unauthorized
    else if !respOk status then .httpError status
    else checkResponses rest

/-- The first non-success status in dispatch order, if any. -/
def firstFailure (l : List Nat) : Option Nat :=
  l.find? (fun status => !respOk status)

/-- The four ways a load cycle can end. -/
inductive Outcome where
  | unauthenticated
  | unauthorized
  | errorCaught
  | success
deriving DecidableEq

/-- A fetched response: its HTTP status, and the parsed body when the json
call succeeds (none models a body whose parsing throws). -/
structure Response (α : Type) where
  status : Nat
  body : Option α
deriving DecidableEq

/-- The stats endpoint payload, identical in both variants. -/
structure SystemStats where
  cpu_usage : ℚ
  gpu_usage : ℚ
  ram_usage : ℚ
  storage_usage : ℚ
  avg_response_time : ℚ
deriving DecidableEq

/-- The message stored by the catch branch of loadDashboardData. -/
def errorMessage : String :=
  "Failed to load moderator data. The server might be unavailable or you may not have access."

/-- The color classes returned for a nominal gauge value. -/
def nominalClass : String := "text-green-400 bg-green-900/20"

/-- The color classes returned for an elevated gauge value. -/
def elevatedClass : String := "text-yellow-400 bg-yellow-900/20"

/-- The color classes returned for a critical gauge value. -/
def criticalClass : String := "text-red-400 bg-red-900/20"

/-- Exactly one of three facts holds. -/
def ExactlyOne (a b c : Prop) : Prop :=
  (a ∧ ¬ b ∧ ¬ c) ∨ (¬ a ∧ b ∧ ¬ c) ∨ (¬ a ∧ ¬ b ∧ c)

/-- Follows the spec words for the latency classification with configurable
breakpoints: nominal below the first breakpoint, elevated from the first up
to the second, critical from the second on. No parametric classifier exists
in the source; this definition is the spec side of the comparison. -/
def specLatencyClassifier (b1 b2 value : ℚ) : String :=
  if value < b1 then nominalClass
  else if value < b2 then elevatedClass
  else criticalClass

end DocuMind

namespace DocuMind.Reduced

/-! The reduced two-resource dashboard, from pages/ModeratorDashboard.tsx. -/

/-- A user record of the reduced users endpoint. -/
structure User where
  id : String
  email : String
deriving DecidableEq

/-- The reduced users endpoint payload. -/
structure UsersResponse where
  total_users : Int
  users : List User
deriving DecidableEq

/-- The published dashboard state of the reduced variant. -/
structure DashboardState where
  usersData : Option UsersResponse
  stats : Option SystemStats
  loading : Bool
  lastUpdated : Option Nat
  error : String
deriving DecidableEq

/-- The useState initial values of the reduced dashboard. -/
def initialDashState : DashboardState :=
  { usersData := none, stats := none, loading := true, lastUpdated := none, error := "" }

/-- One load cycle environment: the token getToken yields, the two
responses the fetches would return, and the clock value for new Date(). -/
structure Env where
  token : Option String
  usersResponse : Response UsersResponse
  statsResponse : Response SystemStats
  now : Nat
deriving DecidableEq

/-- The statuses of the awaited responses, in dispatch order. -/
def responseStatuses (env : Env) : List Nat :=
  [env.usersResponse.status, env.statsResponse.status]

/-- What one load cycle produces: the state published while in flight, the
state published when the cycle ends, the navigate calls made, the number of
fetch calls issued, and the outcome. -/
structure CycleResult where
  inFlight : DashboardState
  final : DashboardState
  navigations : List String
  requestsIssued : Nat
  outcome : Outcome
deriving DecidableEq

/-- The state after the two opening setter calls setLoading(true) and
setError of the empty string. -/
def startCycle (s : DashboardState) : DashboardState :=
  { s with loading := true, error := "" }

/-- One cycle of loadDashboardData in the reduced variant: the token check,
the two parallel fetches, the per-response checking loop, the parallel body
parses, the setters, the catch branch and the finally branch. -/
def loadDashboardData (env : Env) (s : DashboardState) : CycleResult :=
  if tokenTruthy env.token then
    match checkResponses (responseStatuses env) with
    | .unauthorized =>
      { inFlight := startCycle s, final := { startCycle s with loading := false },
        navigations := ["/documind"], requestsIssued := 2, outcome := .unauthorized }
    | .httpError _ =>
      { inFlight := startCycle s,
        final := { startCycle s with error := errorMessage, loading := false },
        navigations := [], requestsIssued := 2, outcome := .errorCaught }
    | .allOk =>
      match env.usersResponse.body, env.statsResponse.body with
      | some usersDataResult, some statsData =>
        { inFlight := startCycle s,
          final := { startCycle s with
                     usersData := some usersDataResult,
                     stats := some statsData,
                     lastUpdated := some env.now,
                     loading := false },
          navigations := [], requestsIssued := 2, outcome := .success }
      | _, _ =>
        { inFlight := startCycle s,
          final := { startCycle s with error := errorMessage, loading := false },
          navigations := [], requestsIssued := 2, outcome := .errorCaught }
  else
    { inFlight := startCycle s, final := { startCycle s with loading := false },
      navigations := ["/login"], requestsIssued := 0, outcome := .unauthenticated }

/-- The severity classifier of the reduced variant: latency breakpoints 350
and 400, percentage breakpoints 60 and 80. -/
def getColorClasses (value : ℚ) (unit : String) : String :=
  if unit = "ms" then
    if value < 350 then "text-green-400 bg-green-900/20"
    else if value < 400 then "text-yellow-400 bg-yellow-900/20"
    else "text-red-400 bg-red-900/20"
  else
    if value < 60 then "text-green-400 bg-green-900/20"
    else if value < 80 then "text-yellow-400 bg-yellow-900/20"
    else "text-red-400 bg-red-900/20"

/-- The gauge array the reduced dashboard renders: label, value, unit. -/
def statsGauges (stats : SystemStats) : List (String × ℚ × String) :=
  [("CPU Usage", stats.cpu_usage, "%"),
   ("GPU Usage", stats.gpu_usage, "%"),
   ("RAM Usage", stats.ram_usage, "%"),
   ("Storage", stats.storage_usage, "%"),
   ("Avg Response", stats.avg_response_time, "ms")]

/-- The cycle navigated to the non-privileged surface. -/
def unauthorizedSignaled (r : CycleResult) : Prop :=
  "/documind" ∈ r.navigations

/-- The cycle left a non-empty error message. -/
def remoteErrorSignaled (r : CycleResult) : Prop :=
  r.final.error ≠ ""

/-- The cycle ran the snapshot setters. -/
def snapshotReplaced (r : CycleResult) : Prop :=
  r.outcome = Outcome.success

end DocuMind.Reduced

namespace DocuMind.Extended

/-! The extended four-resource dashboard, the second document of
AuthContext.tsx. -/

/-- A user record of the extended users endpoint. -/
structure User where
  id : String
  email : String
  lastActive : String
  documentCount : Int
  isActive : Bool
deriving DecidableEq

/-- A session record of the sessions endpoint. -/
structure Session where
  id : String
  userId : String
  createdAt : String
  expiresAt : String
  fileCount : Int
  isExpired : Bool
deriving DecidableEq

/-- A document record of the documents endpoint. -/
structure Document where
  id : Int
  filename : String
  user_id : String
  created_at : String
  status : String
  document_type : String
  chunk_count : Int
deriving DecidableEq

/-- The published dashboard state of the extended variant. -/
structure DashboardState where
  users : List User
  sessions : List Session
  documents : List Document
  stats : Option SystemStats
  loading : Bool
  lastUpdated : Option Nat
  error : String
deriving DecidableEq

/-- The useState initial values of the extended dashboard. -/
def initialDashState : DashboardState :=
  { users := [], sessions := [], documents := [], stats := none,
    loading := true, lastUpdated := none, error := "" }

/-- One load cycle environment of the extended variant: the token and the
four responses, in dispatch order, plus the clock value. -/
structure Env where
  token : Option String
  usersResponse : Response (List User)
  sessionsResponse : Response (List Session)
  docsResponse : Response (List Document)
  statsResponse : Response SystemStats
  now : Nat
deriving DecidableEq

/-- The statuses of the awaited responses, in dispatch order. -/
def responseStatuses (env : Env) : List Nat :=
  [env.usersResponse.status, env.sessionsResponse.status,
   env.docsResponse.status, env.statsResponse.status]

/-- What one load cycle produces in the extended variant. -/
structure CycleResult where
  inFlight : DashboardState
  final : DashboardState
  navigations : List String
  requestsIssued : Nat
  outcome : Outcome
deriving DecidableEq

/-- The state after the two opening setter calls. -/
def startCycle (s : DashboardState) : DashboardState :=
  { s with loading := true, error := "" }

/-- One cycle of loadDashboardData in the extended variant: the token check,
the four parallel fetches, the per-response checking loop, the parallel body
parses, the four snapshot setters, the catch branch and the finally branch. -/
def loadDashboardData (env : Env) (s : DashboardState) : CycleResult :=
  if tokenTruthy env.token then
    match checkResponses (responseStatuses env) with
    | .unauthorized =>
      { inFlight := startCycle s, final := { startCycle s with loading := false },
        navigations := ["/documind"], requestsIssued := 4, outcome := .unauthorized }
    | .httpError _ =>
      { inFlight := startCycle s,
        final := { startCycle s with error := errorMessage, loading := false },
        navigations := [], requestsIssued := 4, outcome := .errorCaught }
    | .allOk =>
      match env.usersResponse.body, env.sessionsResponse.body,
            env.docsResponse.body, env.statsResponse.body with
      | some usersData, some sessionsData, some docsData, some statsData =>
        { inFlight := startCycle s,
          final := { startCycle s with
                     users := usersData,
                     sessions := sessionsData,
                     documents := docsData,
                     stats := some statsData,
                     lastUpdated := some env.now,
                     loading := false },
          navigations := [], requestsIssued := 4, outcome := .success }
      | _, _, _, _ =>
        { inFlight := startCycle s,
          final := { startCycle s with error := errorMessage, loading := false },
          navigations := [], requestsIssued := 4, outcome := .errorCaught }
  else
    { inFlight := startCycle s, final := { startCycle s with loading := false },
      navigations := ["/login"], requestsIssued := 0, outcome := .unauthenticated }

/-- The severity classifier of the extended variant: latency breakpoints 150
and 250, percentage breakpoints 60 and 80. -/
def getColorClasses (value : ℚ) (unit : String) : String :=
  if unit = "ms" then
    if value < 150 then "text-green-400 bg-green-900/20"
    else if value < 250 then "text-yellow-400 bg-yellow-900/20"
    else "text-red-400 bg-red-900/20"
  else
    if value < 60 then "text-green-400 bg-green-900/20"
    else if value < 80 then "text-yellow-400 bg-yellow-900/20"
    else "text-red-400 bg-red-900/20"

/-- The cycle navigated to the non-privileged surface. -/
def unauthorizedSignaled (r : CycleResult) : Prop :=
  "/documind" ∈ r.navigations

/-- The cycle left a non-empty error message. -/
def remoteErrorSignaled (r : CycleResult) : Prop :=
  r.final.error ≠ ""

/-- The cycle ran the snapshot setters. -/
def snapshotReplaced (r : CycleResult) : Prop :=
  r.outcome = Outcome.success

end DocuMind.Extended

namespace DocuMind

/-! Concrete cycle environments used by closed theorems. -/

/-- A reduced-variant cycle where the users endpoint answers 500 and the
stats endpoint answers 401. -/
def env500then401 : Reduced.Env :=
  { token := some "tok", usersResponse := { status := 500, body := none },
    statsResponse := { status := 401, body := none }, now := 0 }

/-- A reduced-variant cycle where the users endpoint answers 401 and the
stats endpoint answers 200. -/
def env401then200 : Reduced.Env :=
  { token := some "tok", usersResponse := { status := 401, body := none },
    statsResponse := { status := 200, body := none }, now := 0 }

/-- A reduced-variant cycle with no token. -/
def envNoToken : Reduced.Env :=
  { token := none, usersResponse := { status := 200, body := none },
    statsResponse := { status := 200, body := none }, now := 0 }

/-- The cycle result of the no-token environment. -/
def noTokenCycle : Reduced.CycleResult :=
  Reduced.loadDashboardData envNoToken Reduced.initialDashState

end DocuMind

namespace DocuMind

/-! Helper lemmas about the session state machine. -/

/-- A status is an authorization failure exactly when it is 401 or 403. -/
theorem isAuthFailure_iff (status : Nat) :
    isAuthFailure status = true ↔ status = 401 ∨ status = 403 := by
  simp [isAuthFailure]

/-- An authorization-failure status is not a success status. -/
theorem authFailure_not_ok {status : Nat} (h : isAuthFailure status = true) :
    respOk status = false := by
  rcases (isAuthFailure_iff status).mp h with rfl | rfl <;> decide

/-- An email on the allowlist is non-empty. -/
theorem allowlist_email_ne_empty {e : String} (hm : e ∈ MODERATOR_EMAILS) :
    (e != "") = true := by
  fin_cases hm <;> decide

/-- The loading flag after folding a list of notifications: unchanged for the
empty list, false otherwise. -/
theorem foldl_auth_loading (l : List (Option Identity)) :
    ∀ s : SessionState,
      (l.foldl (fun s u => onAuthStateChanged u s) s).loading =
        if l = [] then s.loading else false := by
  induction l with
  | nil => intro s; simp
  | cons u rest ih =>
    intro s
    simp only [List.foldl_cons, ih (onAuthStateChanged u s)]
    simp [onAuthStateChanged]

/-- Appending one notification applies the callback to the folded state. -/
theorem applyAuthEvents_concat (events : List (Option Identity)) (u : Option Identity) :
    applyAuthEvents (events ++ [u]) = onAuthStateChanged u (applyAuthEvents events) := by
  unfold applyAuthEvents
  rw [List.foldl_append]
  rfl

/-- Claim C3: an auth-state notification carrying an identity yields
isModerator true exactly when the identity email is, by case-sensitive exact
match, on the fixed allowlist; the allowlist holds the known address, and a
case-changed copy of it is rejected. -/
theorem c3_moderator_allowlist :
    (∀ (u : Identity) (s : SessionState),
        ((onAuthStateChanged (some u) s).isModerator = true ↔
          ∃ e, u.email = some e ∧ e ∈ MODERATOR_EMAILS))
    ∧ "akhyarahmad919@gmail.com" ∈ MODERATOR_EMAILS
    ∧ moderatorCheck (some { id := "uid1", email := some "Akhyarahmad919@gmail.com" }) = false := by
  refine ⟨fun u s => ?_, by decide, by decide⟩
  show moderatorCheck (some u) = true ↔ _
  cases he : u.email with
  | none => simp [moderatorCheck, he]
  | some e =>
    simp only [moderatorCheck, he, Bool.and_eq_true, bne_iff_ne, ne_eq,
      Option.some.injEq]
    constructor
    · rintro ⟨-, hc⟩
      exact ⟨e, rfl, by simpa using hc⟩
    · rintro ⟨e2, rfl, hm⟩
      refine ⟨by simpa using allowlist_email_ne_empty hm, by simpa using hm⟩

/-- Claim C8: the loading flag starts true, is true only before the first
notification, and is false after every notification however many follow. -/
theorem c8_loading_monotone :
    (applyAuthEvents []).loading = true
    ∧ (∀ events, ((applyAuthEvents events).loading = true ↔ events = []))
    ∧ (∀ events u, (applyAuthEvents (events ++ [u])).loading = false) := by
  refine ⟨rfl, fun events => ?_, fun events u => ?_⟩
  · unfold applyAuthEvents
    rw [foldl_auth_loading]
    by_cases h : events = [] <;> simp [h, initialSessionState]
  · unfold applyAuthEvents
    rw [foldl_auth_loading]
    simp

/-- Claim C9: in every reachable session state, an absent identity (no user,
or a user with no email) forces isModerator false. -/
theorem c9_absent_identity_not_moderator :
    ∀ events : List (Option Identity),
      ((applyAuthEvents events).currentUser = none
        ∨ ∃ u, (applyAuthEvents events).currentUser = some u ∧ u.email = none) →
      (applyAuthEvents events).isModerator = false := by
  intro events h
  rcases List.eq_nil_or_concat events with rfl | ⟨l, u, rfl⟩
  · rfl
  · rw [List.concat_eq_append, applyAuthEvents_concat] at h ⊢
    simp only [onAuthStateChanged] at h ⊢
    rcases h with h | ⟨v, hv, he⟩
    · simp [h, moderatorCheck]
    · simp [hv, moderatorCheck, he]

/-- Claim C9 witness: the initial state has no user and is not moderator. -/
theorem c9_witness : (applyAuthEvents []).isModerator = false :=
  c9_absent_identity_not_moderator [] (Or.inl rfl)

end DocuMind

namespace DocuMind

/-! Helper lemmas about the severity classifiers. -/

/-- For a non-latency unit the reduced classifier is the percentage
three-way split at 60 and 80. -/
theorem getColorClasses_reduced_percent (v : ℚ) (unit : String) (hu : unit ≠ "ms") :
    Reduced.getColorClasses v unit =
      (if v < 60 then nominalClass else if v < 80 then elevatedClass else criticalClass) := by
  simp [Reduced.getColorClasses, nominalClass, elevatedClass, criticalClass, hu]

/-- For a non-latency unit the extended classifier is the percentage
three-way split at 60 and 80. -/
theorem getColorClasses_extended_percent (v : ℚ) (unit : String) (hu : unit ≠ "ms") :
    Extended.getColorClasses v unit =
      (if v < 60 then nominalClass else if v < 80 then elevatedClass else criticalClass) := by
  simp [Extended.getColorClasses, nominalClass, elevatedClass, criticalClass, hu]

/-- For the latency unit the reduced classifier is the three-way split at
350 and 400. -/
theorem getColorClasses_reduced_ms (v : ℚ) :
    Reduced.getColorClasses v "ms" =
      (if v < 350 then nominalClass else if v < 400 then elevatedClass else criticalClass) := by
  simp [Reduced.getColorClasses, nominalClass, elevatedClass, criticalClass]

/-- For the latency unit the extended classifier is the three-way split at
150 and 250. -/
theorem getColorClasses_extended_ms (v : ℚ) :
    Extended.getColorClasses v "ms" =
      (if v < 150 then nominalClass else if v < 250 then elevatedClass else criticalClass) := by
  simp [Extended.getColorClasses, nominalClass, elevatedClass, criticalClass]

/-- The three-way percentage split equals the nominal classes exactly below
the first breakpoint. -/
theorem percentTier_nominal (v : ℚ) :
    ((if v < 60 then nominalClass else if v < 80 then elevatedClass else criticalClass)
      = nominalClass) ↔ v < 60 := by
  split_ifs with h1 h2
  · simp [h1]
  · simp [nominalClass, elevatedClass, h1]
  · simp [nominalClass, criticalClass, h1]

/-- The three-way percentage split equals the elevated classes exactly
between the breakpoints. -/
theorem percentTier_elevated (v : ℚ) :
    ((if v < 60 then nominalClass else if v < 80 then elevatedClass else criticalClass)
      = elevatedClass) ↔ 60 ≤ v ∧ v < 80 := by
  split_ifs with h1 h2
  · constructor
    · intro h; exact absurd h (by decide)
    · rintro ⟨hle, -⟩; linarith
  · simp only [not_lt] at h1
    simp [h1, h2]
  · constructor
    · intro h; exact absurd h (by decide)
    · rintro ⟨-, hlt⟩; exact absurd hlt h2

/-- The three-way percentage split equals the critical classes exactly from
the second breakpoint on. -/
theorem percentTier_critical (v : ℚ) :
    ((if v < 60 then nominalClass else if v < 80 then elevatedClass else criticalClass)
      = criticalClass) ↔ 80 ≤ v := by
  split_ifs with h1 h2
  · constructor
    · intro h; exact absurd h (by decide)
    · intro hle; linarith
  · constructor
    · intro h; exact absurd h (by decide)
    · intro hle; linarith
  · simp only [not_lt] at h2
    simp [h2]

/-- Claim C4: every percentage gauge of the rendered gauge array classifies
as nominal below 60, elevated from 60 up to 80, and critical from 80 on; in
particular 59.9 is nominal, 60 elevated, 79.9 elevated and 80 critical. -/
theorem c4_percentage_boundaries :
    (∀ (stats : SystemStats) (label : String) (v : ℚ),
        (label, v, "%") ∈ Reduced.statsGauges stats →
        ((Reduced.getColorClasses v "%" = nominalClass ↔ v < 60)
          ∧ (Reduced.getColorClasses v "%" = elevatedClass ↔ 60 ≤ v ∧ v < 80)
          ∧ (Reduced.getColorClasses v "%" = criticalClass ↔ 80 ≤ v)))
    ∧ Reduced.getColorClasses 59.9 "%" = nominalClass
    ∧ Reduced.getColorClasses 60 "%" = elevatedClass
    ∧ Reduced.getColorClasses 79.9 "%" = elevatedClass
    ∧ Reduced.getColorClasses 80 "%" = criticalClass := by
  refine ⟨fun stats label v _ => ?_, ?_, ?_, ?_, ?_⟩
  · rw [getColorClasses_reduced_percent v "%" (by decide)]
    exact ⟨percentTier_nominal v, percentTier_elevated v, percentTier_critical v⟩
  · rw [getColorClasses_reduced_percent 59.9 "%" (by decide), if_pos (by norm_num)]
  · rw [getColorClasses_reduced_percent 60 "%" (by decide), if_neg (by norm_num),
      if_pos (by norm_num)]
  · rw [getColorClasses_reduced_percent 79.9 "%" (by decide), if_neg (by norm_num),
      if_pos (by norm_num)]
  · rw [getColorClasses_reduced_percent 80 "%" (by decide), if_neg (by norm_num),
      if_neg (by norm_num)]

/-- Claim C4 witness: at the concrete gauge value 59.9 on the CPU gauge the
classification agrees with the strict bound at 60. -/
theorem c4_witness :
    Reduced.getColorClasses 59.9 "%" = nominalClass ↔ (59.9 : ℚ) < 60 :=
  (c4_percentage_boundaries.1
    { cpu_usage := 59.9, gpu_usage := 0, ram_usage := 0, storage_usage := 0,
      avg_response_time := 0 }
    "CPU Usage" 59.9 (by simp [Reduced.statsGauges])).1

/-- Claim C10: the two classifier copies agree on every unit other than ms,
and disagree on ms for some value. -/
theorem c10_variant_agreement :
    (∀ (v : ℚ) (unit : String), unit ≠ "ms" →
        Reduced.getColorClasses v unit = Extended.getColorClasses v unit)
    ∧ (∃ v : ℚ, Reduced.getColorClasses v "ms" ≠ Extended.getColorClasses v "ms") := by
  constructor
  · intro v unit hu
    rw [getColorClasses_reduced_percent v unit hu, getColorClasses_extended_percent v unit hu]
  · refine ⟨200, ?_⟩
    have h1 : Reduced.getColorClasses 200 "ms" = nominalClass := by
      rw [getColorClasses_reduced_ms]; norm_num
    have h2 : Extended.getColorClasses 200 "ms" = elevatedClass := by
      rw [getColorClasses_extended_ms]; norm_num
    rw [h1, h2]; decide

/-- Claim C10 witness: at the concrete percentage value 50 the two copies
agree. -/
theorem c10_witness :
    Reduced.getColorClasses 50 "%" = Extended.getColorClasses 50 "%" :=
  c10_variant_agreement.1 50 "%" (by decide)

/-- Claim C2 counterexample: at the concrete latency value 200 the two
copies of the classification code disagree, the reduced copy answers
nominal, and the 150/250 calibration of the spec classifier demands
elevated: the calibration is baked into each copy, not selected by a
parameter of the classification code. -/
theorem c2_counterexample :
    Reduced.getColorClasses 200 "ms" ≠ Extended.getColorClasses 200 "ms"
    ∧ Reduced.getColorClasses 200 "ms" = nominalClass
    ∧ specLatencyClassifier 150 250 200 = elevatedClass
    ∧ specLatencyClassifier 350 400 200 = nominalClass := by
  have h1 : Reduced.getColorClasses 200 "ms" = nominalClass := by
    rw [getColorClasses_reduced_ms]; norm_num
  have h2 : Extended.getColorClasses 200 "ms" = elevatedClass := by
    rw [getColorClasses_extended_ms]; norm_num
  refine ⟨?_, h1, ?_, ?_⟩
  · rw [h1, h2]; decide
  · unfold specLatencyClassifier; norm_num
  · unfold specLatencyClassifier; norm_num

/-- Claim C2 amended: the latency breakpoints are hard-coded, one fixed
calibration per copy of the classifier; each copy equals the parametric
spec classifier only at its own baked-in breakpoints, 350/400 in the
reduced variant and 150/250 in the extended variant. -/
theorem c2_fixed_breakpoints :
    ∀ v : ℚ,
      Reduced.getColorClasses v "ms" = specLatencyClassifier 350 400 v
      ∧ Extended.getColorClasses v "ms" = specLatencyClassifier 150 250 v := by
  intro v
  constructor
  · rw [getColorClasses_reduced_ms]; rfl
  · rw [getColorClasses_extended_ms]; rfl

end DocuMind

namespace DocuMind

/-! Helper lemmas about the response-checking loop and the load cycle. -/

/-- The loop answers unauthorized exactly when the first non-success status
in dispatch order is an authorization failure. -/
theorem checkResponses_unauthorized_iff :
    ∀ l : List Nat,
      checkResponses l = LoopResult.unauthorized ↔
        ∃ b, firstFailure l = some b ∧ isAuthFailure b = true := by
  intro l
  induction l with
  | nil => simp [checkResponses, firstFailure]
  | cons status rest ih =>
    by_cases h1 : isAuthFailure status = true
    · have h2 : (!respOk status) = true := by rw [authFailure_not_ok h1]; rfl
      have hfind : firstFailure (status :: rest) = some status := by
        simp [firstFailure, List.find?_cons, h2]
      simp only [checkResponses]
      rw [if_pos h1, hfind]
      simp [h1]
    · by_cases h2 : respOk status = true
      · have hfind : firstFailure (status :: rest) = firstFailure rest := by
          simp [firstFailure, List.find?_cons, h2]
        simp only [checkResponses]
        rw [if_neg h1, if_neg (by simp [h2]), hfind]
        exact ih
      · have h2t : (!respOk status) = true := by
          cases hr : respOk status
          · rfl
          · exact absurd hr h2
        have hfind : firstFailure (status :: rest) = some status := by
          simp [firstFailure, List.find?_cons, h2t]
        simp only [checkResponses]
        rw [if_neg h1, if_pos h2t, hfind]
        simp [h1]

/-- A reduced cycle with a token ends unauthorized exactly when the loop
answers unauthorized. -/
theorem reduced_unauthorized_iff_loop (env : Reduced.Env) (s : Reduced.DashboardState)
    (h : tokenTruthy env.token = true) :
    (Reduced.loadDashboardData env s).outcome = Outcome.unauthorized ↔
      checkResponses (Reduced.responseStatuses env) = LoopResult.unauthorized := by
  unfold Reduced.loadDashboardData
  rw [if_pos h]
  cases hc : checkResponses (Reduced.responseStatuses env) with
  | unauthorized => simp
  | httpError st => simp
  | allOk =>
    cases env.usersResponse.body <;> cases env.statsResponse.body <;> simp

/-- An extended cycle with a token ends unauthorized exactly when the loop
answers unauthorized. -/
theorem extended_unauthorized_iff_loop (env : Extended.Env) (s : Extended.DashboardState)
    (h : tokenTruthy env.token = true) :
    (Extended.loadDashboardData env s).outcome = Outcome.unauthorized ↔
      checkResponses (Extended.responseStatuses env) = LoopResult.unauthorized := by
  unfold Extended.loadDashboardData
  rw [if_pos h]
  cases hc : checkResponses (Extended.responseStatuses env) with
  | unauthorized => simp
  | httpError st => simp
  | allOk =>
    cases env.usersResponse.body <;> cases env.sessionsResponse.body <;>
      cases env.docsResponse.body <;> cases env.statsResponse.body <;> simp

/-- Claim C1 counterexample: with a token present and the awaited statuses
500 then 401, the cycle ends in the caught-error path with no navigation,
not in the unauthorized path, although a 401 is among the awaited
responses. -/
theorem c1_counterexample :
    (Reduced.loadDashboardData env500then401 Reduced.initialDashState).outcome
        ≠ Outcome.unauthorized
    ∧ (Reduced.loadDashboardData env500then401 Reduced.initialDashState).outcome
        = Outcome.errorCaught
    ∧ (Reduced.loadDashboardData env500then401 Reduced.initialDashState).navigations = []
    ∧ 401 ∈ Reduced.responseStatuses env500then401
    ∧ tokenTruthy env500then401.token = true := by
  refine ⟨by decide, by decide, by decide, by decide, by decide⟩

/-- Claim C1 amended: with a token present the cycle ends unauthorized
exactly when the first non-success response in dispatch order carries 401
or 403; a 401/403 behind an earlier non-success non-auth status ends in
the caught-error path instead, because the loop checks authorization and
success per response, in order. -/
theorem c1_first_failure_decides :
    (∀ (env : Reduced.Env) (s : Reduced.DashboardState), tokenTruthy env.token = true →
      ((Reduced.loadDashboardData env s).outcome = Outcome.unauthorized ↔
        ∃ b, firstFailure (Reduced.responseStatuses env) = some b ∧ isAuthFailure b = true))
    ∧ (∀ (env : Extended.Env) (s : Extended.DashboardState), tokenTruthy env.token = true →
      ((Extended.loadDashboardData env s).outcome = Outcome.unauthorized ↔
        ∃ b, firstFailure (Extended.responseStatuses env) = some b ∧ isAuthFailure b = true)) := by
  constructor
  · intro env s h
    rw [reduced_unauthorized_iff_loop env s h, checkResponses_unauthorized_iff]
  · intro env s h
    rw [extended_unauthorized_iff_loop env s h, checkResponses_unauthorized_iff]

/-- Claim C1 witness: when the first awaited response carries 401 the cycle
ends unauthorized. -/
theorem c1_witness :
    (Reduced.loadDashboardData env401then200 Reduced.initialDashState).outcome
      = Outcome.unauthorized :=
  (c1_first_failure_decides.1 env401then200 Reduced.initialDashState (by decide)).mpr
    ⟨401, by decide, by decide⟩

/-- Claim C6: a cycle in which getToken yields no token ends unauthenticated,
navigates to the sign-in surface, and issues zero requests. -/
theorem c6_no_token_no_requests :
    ∀ (env : Reduced.Env) (s : Reduced.DashboardState), env.token = none →
      (Reduced.loadDashboardData env s).outcome = Outcome.unauthenticated
      ∧ (Reduced.loadDashboardData env s).requestsIssued = 0
      ∧ (Reduced.loadDashboardData env s).navigations = ["/login"] := by
  intro env s h
  have ht : tokenTruthy env.token = false := by rw [h]; rfl
  unfold Reduced.loadDashboardData
  rw [if_neg (by simp [ht])]
  exact ⟨rfl, rfl, rfl⟩

/-- Claim C6 witness: the concrete no-token cycle issues zero requests. -/
theorem c6_witness :
    (Reduced.loadDashboardData envNoToken Reduced.initialDashState).requestsIssued = 0 :=
  (c6_no_token_no_requests envNoToken Reduced.initialDashState rfl).2.1

end DocuMind

namespace DocuMind

/-- Frame property of a reduced cycle: a non-success cycle leaves every
snapshot field as it was; a success cycle replaces every snapshot field
from the parsed bodies and stamps the clock. -/
theorem snapshot_frame_reduced :
    ∀ (env : Reduced.Env) (s : Reduced.DashboardState),
      ((Reduced.loadDashboardData env s).outcome ≠ Outcome.success →
        ((Reduced.loadDashboardData env s).final.usersData = s.usersData
          ∧ (Reduced.loadDashboardData env s).final.stats = s.stats
          ∧ (Reduced.loadDashboardData env s).final.lastUpdated = s.lastUpdated))
      ∧ ((Reduced.loadDashboardData env s).outcome = Outcome.success →
        ∃ u stats, env.usersResponse.body = some u
          ∧ env.statsResponse.body = some stats
          ∧ (Reduced.loadDashboardData env s).final.usersData = some u
          ∧ (Reduced.loadDashboardData env s).final.stats = some stats
          ∧ (Reduced.loadDashboardData env s).final.lastUpdated = some env.now) := by
  intro env s
  unfold Reduced.loadDashboardData
  by_cases h : tokenTruthy env.token = true
  · rw [if_pos h]
    cases hc : checkResponses (Reduced.responseStatuses env) with
    | unauthorized => exact ⟨fun _ => ⟨rfl, rfl, rfl⟩, fun hs => by simp at hs⟩
    | httpError st => exact ⟨fun _ => ⟨rfl, rfl, rfl⟩, fun hs => by simp at hs⟩
    | allOk =>
      cases hu : env.usersResponse.body with
      | none =>
        cases hst : env.statsResponse.body with
        | none => exact ⟨fun _ => ⟨rfl, rfl, rfl⟩, fun hs => by simp at hs⟩
        | some st => exact ⟨fun _ => ⟨rfl, rfl, rfl⟩, fun hs => by simp at hs⟩
      | some u =>
        cases hst : env.statsResponse.body with
        | none => exact ⟨fun _ => ⟨rfl, rfl, rfl⟩, fun hs => by simp at hs⟩
        | some st =>
          exact ⟨fun hn => absurd rfl hn, fun _ => ⟨u, st, rfl, rfl, rfl, rfl, rfl⟩⟩
  · rw [if_neg h]
    exact ⟨fun _ => ⟨rfl, rfl, rfl⟩, fun hs => by simp at hs⟩

/-- Frame property of an extended cycle: a non-success cycle leaves every
snapshot field as it was; a success cycle replaces every snapshot field
from the parsed bodies and stamps the clock. -/
theorem snapshot_frame_extended :
    ∀ (env : Extended.Env) (s : Extended.DashboardState),
      ((Extended.loadDashboardData env s).outcome ≠ Outcome.success →
        ((Extended.loadDashboardData env s).final.users = s.users
          ∧ (Extended.loadDashboardData env s).final.sessions = s.sessions
          ∧ (Extended.loadDashboardData env s).final.documents = s.documents
          ∧ (Extended.loadDashboardData env s).final.stats = s.stats
          ∧ (Extended.loadDashboardData env s).final.lastUpdated = s.lastUpdated))
      ∧ ((Extended.loadDashboardData env s).outcome = Outcome.success →
        ∃ u se d stats, env.usersResponse.body = some u
          ∧ env.sessionsResponse.body = some se
          ∧ env.docsResponse.body = some d
          ∧ env.statsResponse.body = some stats
          ∧ (Extended.loadDashboardData env s).final.users = u
          ∧ (Extended.loadDashboardData env s).final.sessions = se
          ∧ (Extended.loadDashboardData env s).final.documents = d
          ∧ (Extended.loadDashboardData env s).final.stats = some stats
          ∧ (Extended.loadDashboardData env s).final.lastUpdated = some env.now) := by
  intro env s
  unfold Extended.loadDashboardData
  by_cases h : tokenTruthy env.token = true
  · rw [if_pos h]
    cases hc : checkResponses (Extended.responseStatuses env) with
    | unauthorized => exact ⟨fun _ => ⟨rfl, rfl, rfl, rfl, rfl⟩, fun hs => by simp at hs⟩
    | httpError st => exact ⟨fun _ => ⟨rfl, rfl, rfl, rfl, rfl⟩, fun hs => by simp at hs⟩
    | allOk =>
      cases hu : env.usersResponse.body with
      | none => exact ⟨fun _ => ⟨rfl, rfl, rfl, rfl, rfl⟩, fun hs => by simp at hs⟩
      | some u =>
        cases hse : env.sessionsResponse.body with
        | none => exact ⟨fun _ => ⟨rfl, rfl, rfl, rfl, rfl⟩, fun hs => by simp at hs⟩
        | some se =>
          cases hd : env.docsResponse.body with
          | none => exact ⟨fun _ => ⟨rfl, rfl, rfl, rfl, rfl⟩, fun hs => by simp at hs⟩
          | some d =>
            cases hst : env.statsResponse.body with
            | none => exact ⟨fun _ => ⟨rfl, rfl, rfl, rfl, rfl⟩, fun hs => by simp at hs⟩
            | some st =>
              exact ⟨fun hn => absurd rfl hn,
                fun _ => ⟨u, se, d, st, rfl, rfl, rfl, rfl, rfl, rfl, rfl, rfl, rfl⟩⟩
  · rw [if_neg h]
    exact ⟨fun _ => ⟨rfl, rfl, rfl, rfl, rfl⟩, fun hs => by simp at hs⟩

/-- Claim C5: in both variants a failed cycle modifies no snapshot field,
and only the fully successful path replaces the snapshot, replacing every
field. -/
theorem c5_snapshot_atomicity :
    (∀ (env : Reduced.Env) (s : Reduced.DashboardState),
      ((Reduced.loadDashboardData env s).outcome ≠ Outcome.success →
        ((Reduced.loadDashboardData env s).final.usersData = s.usersData
          ∧ (Reduced.loadDashboardData env s).final.stats = s.stats
          ∧ (Reduced.loadDashboardData env s).final.lastUpdated = s.lastUpdated))
      ∧ ((Reduced.loadDashboardData env s).outcome = Outcome.success →
        ∃ u stats, env.usersResponse.body = some u
          ∧ env.statsResponse.body = some stats
          ∧ (Reduced.loadDashboardData env s).final.usersData = some u
          ∧ (Reduced.loadDashboardData env s).final.stats = some stats
          ∧ (Reduced.loadDashboardData env s).final.lastUpdated = some env.now))
    ∧ (∀ (env : Extended.Env) (s : Extended.DashboardState),
      ((Extended.loadDashboardData env s).outcome ≠ Outcome.success →
        ((Extended.loadDashboardData env s).final.users = s.users
          ∧ (Extended.loadDashboardData env s).final.sessions = s.sessions
          ∧ (Extended.loadDashboardData env s).final.documents = s.documents
          ∧ (Extended.loadDashboardData env s).final.stats = s.stats
          ∧ (Extended.loadDashboardData env s).final.lastUpdated = s.lastUpdated))
      ∧ ((Extended.loadDashboardData env s).outcome = Outcome.success →
        ∃ u se d stats, env.usersResponse.body = some u
          ∧ env.sessionsResponse.body = some se
          ∧ env.docsResponse.body = some d
          ∧ env.statsResponse.body = some stats
          ∧ (Extended.loadDashboardData env s).final.users = u
          ∧ (Extended.loadDashboardData env s).final.sessions = se
          ∧ (Extended.loadDashboardData env s).final.documents = d
          ∧ (Extended.loadDashboardData env s).final.stats = some stats
          ∧ (Extended.loadDashboardData env s).final.lastUpdated = some env.now)) :=
  ⟨snapshot_frame_reduced, snapshot_frame_extended⟩

/-- Claim C5 witness: the concrete failed cycle with statuses 500 then 401
leaves the stats field of the initial state untouched. -/
theorem c5_witness :
    (Reduced.loadDashboardData env500then401 Reduced.initialDashState).final.stats
      = Reduced.initialDashState.stats :=
  ((c5_snapshot_atomicity.1 env500then401 Reduced.initialDashState).1 (by decide)).2.1

end DocuMind

namespace DocuMind

/-- A reduced cycle with a token shows exactly one of the three events:
snapshot replaced, unauthorized navigation, error stored. -/
theorem cycle_effects_reduced :
    ∀ (env : Reduced.Env) (s : Reduced.DashboardState), tokenTruthy env.token = true →
      ExactlyOne (Reduced.snapshotReplaced (Reduced.loadDashboardData env s))
        (Reduced.unauthorizedSignaled (Reduced.loadDashboardData env s))
        (Reduced.remoteErrorSignaled (Reduced.loadDashboardData env s)) := by
  intro env s h
  unfold Reduced.loadDashboardData
  rw [if_pos h]
  cases hc : checkResponses (Reduced.responseStatuses env) with
  | unauthorized =>
    refine Or.inr (Or.inl ⟨?_, ?_, ?_⟩)
    · simp [Reduced.snapshotReplaced]
    · simp [Reduced.unauthorizedSignaled]
    · simp [Reduced.remoteErrorSignaled, Reduced.startCycle]
  | httpError st =>
    refine Or.inr (Or.inr ⟨?_, ?_, ?_⟩)
    · simp [Reduced.snapshotReplaced]
    · simp [Reduced.unauthorizedSignaled]
    · simp [Reduced.remoteErrorSignaled, errorMessage]
  | allOk =>
    cases hu : env.usersResponse.body with
    | none =>
      refine Or.inr (Or.inr ⟨?_, ?_, ?_⟩)
      · simp [Reduced.snapshotReplaced]
      · simp [Reduced.unauthorizedSignaled]
      · simp [Reduced.remoteErrorSignaled, errorMessage]
    | some u =>
      cases hst : env.statsResponse.body with
      | none =>
        refine Or.inr (Or.inr ⟨?_, ?_, ?_⟩)
        · simp [Reduced.snapshotReplaced]
        · simp [Reduced.unauthorizedSignaled]
        · simp [Reduced.remoteErrorSignaled, errorMessage]
      | some st =>
        refine Or.inl ⟨?_, ?_, ?_⟩
        · simp [Reduced.snapshotReplaced]
        · simp [Reduced.unauthorizedSignaled]
        · simp [Reduced.remoteErrorSignaled, Reduced.startCycle]

/-- An extended cycle with a token shows exactly one of the three events. -/
theorem cycle_effects_extended :
    ∀ (env : Extended.Env) (s : Extended.DashboardState), tokenTruthy env.token = true →
      ExactlyOne (Extended.snapshotReplaced (Extended.loadDashboardData env s))
        (Extended.unauthorizedSignaled (Extended.loadDashboardData env s))
        (Extended.remoteErrorSignaled (Extended.loadDashboardData env s)) := by
  intro env s h
  unfold Extended.loadDashboardData
  rw [if_pos h]
  cases hc : checkResponses (Extended.responseStatuses env) with
  | unauthorized =>
    refine Or.inr (Or.inl ⟨?_, ?_, ?_⟩)
    · simp [Extended.snapshotReplaced]
    · simp [Extended.unauthorizedSignaled]
    · simp [Extended.remoteErrorSignaled, Extended.startCycle]
  | httpError st =>
    refine Or.inr (Or.inr ⟨?_, ?_, ?_⟩)
    · simp [Extended.snapshotReplaced]
    · simp [Extended.unauthorizedSignaled]
    · simp [Extended.remoteErrorSignaled, errorMessage]
  | allOk =>
    cases hu : env.usersResponse.body with
    | none =>
      refine Or.inr (Or.inr ⟨?_, ?_, ?_⟩)
      · simp [Extended.snapshotReplaced]
      · simp [Extended.unauthorizedSignaled]
      · simp [Extended.remoteErrorSignaled, errorMessage]
    | some u =>
      cases hse : env.sessionsResponse.body with
      | none =>
        refine Or.inr (Or.inr ⟨?_, ?_, ?_⟩)
        · simp [Extended.snapshotReplaced]
        · simp [Extended.unauthorizedSignaled]
        · simp [Extended.remoteErrorSignaled, errorMessage]
      | some se =>
        cases hd : env.docsResponse.body with
        | none =>
          refine Or.inr (Or.inr ⟨?_, ?_, ?_⟩)
          · simp [Extended.snapshotReplaced]
          · simp [Extended.unauthorizedSignaled]
          · simp [Extended.remoteErrorSignaled, errorMessage]
        | some d =>
          cases hst : env.statsResponse.body with
          | none =>
            refine Or.inr (Or.inr ⟨?_, ?_, ?_⟩)
            · simp [Extended.snapshotReplaced]
            · simp [Extended.unauthorizedSignaled]
            · simp [Extended.remoteErrorSignaled, errorMessage]
          | some st =>
            refine Or.inl ⟨?_, ?_, ?_⟩
            · simp [Extended.snapshotReplaced]
            · simp [Extended.unauthorizedSignaled]
            · simp [Extended.remoteErrorSignaled, Extended.startCycle]

/-- Every reduced cycle publishes loading true while in flight and loading
false when it ends. -/
theorem cycle_loading_reduced :
    ∀ (env : Reduced.Env) (s : Reduced.DashboardState),
      (Reduced.loadDashboardData env s).inFlight.loading = true
      ∧ (Reduced.loadDashboardData env s).final.loading = false := by
  intro env s
  unfold Reduced.loadDashboardData
  by_cases h : tokenTruthy env.token = true
  · rw [if_pos h]
    cases hc : checkResponses (Reduced.responseStatuses env) with
    | unauthorized => exact ⟨rfl, rfl⟩
    | httpError st => exact ⟨rfl, rfl⟩
    | allOk =>
      cases env.usersResponse.body <;> cases env.statsResponse.body <;> exact ⟨rfl, rfl⟩
  · rw [if_neg h]
    exact ⟨rfl, rfl⟩

/-- Every extended cycle publishes loading true while in flight and loading
false when it ends. -/
theorem cycle_loading_extended :
    ∀ (env : Extended.Env) (s : Extended.DashboardState),
      (Extended.loadDashboardData env s).inFlight.loading = true
      ∧ (Extended.loadDashboardData env s).final.loading = false := by
  intro env s
  unfold Extended.loadDashboardData
  by_cases h : tokenTruthy env.token = true
  · rw [if_pos h]
    cases hc : checkResponses (Extended.responseStatuses env) with
    | unauthorized => exact ⟨rfl, rfl⟩
    | httpError st => exact ⟨rfl, rfl⟩
    | allOk =>
      cases env.usersResponse.body <;> cases env.sessionsResponse.body <;>
        cases env.docsResponse.body <;> cases env.statsResponse.body <;> exact ⟨rfl, rfl⟩
  · rw [if_neg h]
    exact ⟨rfl, rfl⟩

/-- Claim C7 counterexample: the concrete no-token cycle is a load cycle
that shows none of the three outcomes of the claim; it navigates to the
sign-in surface instead. -/
theorem c7_counterexample :
    ¬ ExactlyOne (Reduced.snapshotReplaced noTokenCycle)
      (Reduced.unauthorizedSignaled noTokenCycle)
      (Reduced.remoteErrorSignaled noTokenCycle)
    ∧ noTokenCycle.navigations = ["/login"]
    ∧ noTokenCycle.outcome = Outcome.unauthenticated := by
  refine ⟨?_, by decide, by decide⟩
  unfold ExactlyOne Reduced.snapshotReplaced Reduced.unauthorizedSignaled
    Reduced.remoteErrorSignaled
  decide

/-- Claim C7 amended: every cycle in which a token was obtained shows
exactly one of the three outcomes, and every cycle publishes loading true
while in flight and loading false when it ends; a cycle without a token
ends unauthenticated, outside the three outcomes. -/
theorem c7_single_outcome_with_token :
    (∀ (env : Reduced.Env) (s : Reduced.DashboardState), tokenTruthy env.token = true →
      ExactlyOne (Reduced.snapshotReplaced (Reduced.loadDashboardData env s))
        (Reduced.unauthorizedSignaled (Reduced.loadDashboardData env s))
        (Reduced.remoteErrorSignaled (Reduced.loadDashboardData env s)))
    ∧ (∀ (env : Reduced.Env) (s : Reduced.DashboardState),
      (Reduced.loadDashboardData env s).inFlight.loading = true
      ∧ (Reduced.loadDashboardData env s).final.loading = false)
    ∧ (∀ (env : Extended.Env) (s : Extended.DashboardState), tokenTruthy env.token = true →
      ExactlyOne (Extended.snapshotReplaced (Extended.loadDashboardData env s))
        (Extended.unauthorizedSignaled (Extended.loadDashboardData env s))
        (Extended.remoteErrorSignaled (Extended.loadDashboardData env s)))
    ∧ (∀ (env : Extended.Env) (s : Extended.DashboardState),
      (Extended.loadDashboardData env s).inFlight.loading = true
      ∧ (Extended.loadDashboardData env s).final.loading = false) :=
  ⟨cycle_effects_reduced, cycle_loading_reduced, cycle_effects_extended, cycle_loading_extended⟩

/-- Claim C7 witness: the concrete cycle with statuses 401 then 200 shows
exactly one of the three outcomes. -/
theorem c7_witness :
    ExactlyOne
      (Reduced.snapshotReplaced (Reduced.loadDashboardData env401then200 Reduced.initialDashState))
      (Reduced.unauthorizedSignaled (Reduced.loadDashboardData env401then200 Reduced.initialDashState))
      (Reduced.remoteErrorSignaled (Reduced.loadDashboardData env401then200 Reduced.initialDashState)) :=
  c7_single_outcome_with_token.1 env401then200 Reduced.initialDashState (by decide)

end DocuMind
